import Mathlib

/-!
Shallow embedding of the text-to-pptx generator backend
(src/backend/llm_router.py, src/backend/pptx_builder.py, src/backend/main.py).

Python strings are modelled as Lean `String`; the Python string operations
used by the code (str.strip, str.splitlines, str.split, the heading regex,
the brace-span regex) are modelled character-exactly on `String.data`.
External HTTP calls and the json / python-pptx libraries are modelled by
parameters: a provider call is an `Except Unit Deck` value, `json.loads` is
an abstract parameter `jp : String -> Option Deck`, and the pptx object
model is a small record of the observable effects the builder performs.
-/

namespace TextToPpt

/-- A slide dictionary as produced by the structuring layer:
title, bullet strings and speaker notes. -/
structure SlideDict where
  title : String
  bullets : List String
  notes : String
  deriving Repr, DecidableEq

/-- The deck dictionary returned by the structuring layer:
overall title and list of slides. -/
structure Deck where
  title : String
  slides : List SlideDict
  deriving Repr, DecidableEq

/-! ### Python string primitives -/

/-- The ASCII whitespace characters stripped by Python str.strip() and
matched by the regex class backslash-s. -/
def isPySpace (c : Char) : Bool :=
  c = ' ' || c = '\t' || c = '\n' || c = '\r' || c = '\x0B' || c = '\x0C'

/-- Drop the longest suffix whose characters satisfy p. -/
def dropEndWhile (p : Char → Bool) (s : List Char) : List Char :=
  (s.reverse.dropWhile p).reverse

/-- Python str.strip() on a character list. -/
def pyStripL (s : List Char) : List Char :=
  dropEndWhile isPySpace (s.dropWhile isPySpace)

/-- Python str.strip(). -/
def pyStrip (s : String) : String :=
  ⟨pyStripL s.data⟩

/-- Python str.strip(chars) for a given character set. -/
def stripSetL (cs : List Char) (s : List Char) : List Char :=
  dropEndWhile (fun c => cs.contains c) (s.dropWhile (fun c => cs.contains c))

/-- Models the strip of the three characters dash, star, space
applied to each collected line when bullets are flushed. -/
def stripDashStar (s : String) : String :=
  ⟨stripSetL ['-', '*', ' '] s.data⟩

/-- One-character line boundaries of Python str.splitlines(). -/
def isLineBoundary (c : Char) : Bool :=
  c = '\n' || c = '\r' || c = '\x0B' || c = '\x0C' ||
  c = '\x1C' || c = '\x1D' || c = '\x1E' || c = '\x85' ||
  c = ' ' || c = ' '

/-- Worker for splitlines: splits at line boundaries, treating a
carriage-return/newline pair as a single boundary. -/
def splitlinesGo : List Char → List Char → List (List Char)
  | [], acc => [acc.reverse]
  | '\r' :: '\n' :: rest, acc => acc.reverse :: splitlinesGo rest []
  | c :: rest, acc =>
      if isLineBoundary c then acc.reverse :: splitlinesGo rest []
      else splitlinesGo rest (c :: acc)

/-- Python str.splitlines() for strings that do not end in a line boundary
(the code only applies it to stripped text, which never does). -/
def pySplitlines (s : String) : List String :=
  if s.data.isEmpty then [] else (splitlinesGo s.data []).map fun cs => ⟨cs⟩

/-- Worker for Python text.split applied with the two-character separator
of one newline followed by another. -/
def splitNNGo : List Char → List Char → List (List Char)
  | '\n' :: '\n' :: rest, acc => acc.reverse :: splitNNGo rest []
  | c :: rest, acc => splitNNGo rest (c :: acc)
  | [], acc => [acc.reverse]

/-- Python text.split on the separator of two consecutive newlines. -/
def splitNN (s : String) : List String :=
  (splitNNGo s.data []).map fun cs => ⟨cs⟩

/-- Worker for re.split on a pattern that is an alternation of single
characters: every occurrence of a character in cs is a split point. -/
def splitAnyGo (cs : List Char) : List Char → List Char → List (List Char)
  | [], acc => [acc.reverse]
  | c :: rest, acc =>
      if cs.contains c then acc.reverse :: splitAnyGo cs rest []
      else splitAnyGo cs rest (c :: acc)

/-- The characters of the fallback bullet-splitting regex in
the heuristic paragraph path: the three literal characters of the
mojibake sequence in the source, the dash, the bullet sign, and newline. -/
def fallbackSplitChars : List Char :=
  ['â', '€', '¢', '-', '•', '\n']

/-! ### The heading regex of the heuristic structurer -/

/-- Number of leading hash characters. -/
def countLeadingHashes : List Char → Nat
  | '#' :: rest => countLeadingHashes rest + 1
  | _ => 0

/-- Whether a line matches the heading regex: optional leading whitespace,
one or two hash marks, at least one whitespace character, then at least one
further character. -/
def matchesHeading (line : List Char) : Bool :=
  let t := line.dropWhile isPySpace
  let h := countLeadingHashes t
  let r := t.drop h
  decide (1 ≤ h) && decide (h ≤ 2) &&
    (match r with
     | c :: _ :: _ => isPySpace c
     | _ => false)

/-- The title extracted from a matched heading line: the regex substitution
removes leading whitespace, the hash marks and the whitespace run after
them, and the result is stripped. -/
def headingTitle (line : List Char) : String :=
  let t := line.dropWhile isPySpace
  let r := t.drop (countLeadingHashes t)
  ⟨pyStripL (r.dropWhile isPySpace)⟩

/-! ### The heuristic structurer -/

/-- Mutable state of the heading scan: accumulated slides, the pending
title (None before any heading) and the collected content lines. -/
structure HState where
  slides : List SlideDict
  currentTitle : Option String
  currentLines : List String
  deriving Repr, DecidableEq

/-- Python truthiness of the optional current title: a string is truthy
exactly when it is non-empty. -/
def titleTruthy : Option String → Bool
  | some t => t ≠ ""
  | none => false

/-- flush_slide: if there is a truthy title or collected lines, emit a
slide whose title is the current title or the literal Slide, and whose
bullets are the stripped non-blank lines capped at eight. -/
def flush_slide (st : HState) : HState :=
  if titleTruthy st.currentTitle || !st.currentLines.isEmpty then
    let bullets :=
      (st.currentLines.filter fun ln => pyStrip ln ≠ "").map
        fun ln => pyStrip (stripDashStar ln)
    let bullets := if bullets.length > 8 then bullets.take 8 else bullets
    let t :=
      match st.currentTitle with
      | some s => if s ≠ "" then s else "Slide"
      | none => "Slide"
    { slides := st.slides ++ [{ title := t, bullets := bullets.take 8, notes := "" }],
      currentTitle := none, currentLines := [] }
  else
    { st with currentTitle := none, currentLines := [] }

/-- One iteration of the line loop: a heading line flushes and installs a
new pending title; a non-blank line is collected stripped; a blank line is
skipped. -/
def heuristic_step (st : HState) (ln : String) : HState :=
  if matchesHeading ln.data then
    let st2 := flush_slide st
    { st2 with currentTitle := some (headingTitle ln.data) }
  else if pyStrip ln ≠ "" then
    { st with currentLines := st.currentLines ++ [pyStrip ln] }
  else
    st

/-- The paragraph-chunking fallback: split the raw text on double
newlines, keep the stripped non-empty paragraphs, and make each one a
slide titled Section N with up to six bullets split on the fallback
characters. -/
def paragraphSlides (text : String) : List SlideDict :=
  let paras := (splitNN text).filterMap fun p =>
    if pyStrip p ≠ "" then some (pyStrip p) else none
  (paras.enum).map fun ip =>
    let bullets := ((splitAnyGo fallbackSplitChars ip.2.data []).filterMap fun s =>
      if pyStripL s ≠ [] then some (String.mk (pyStripL s)) else none)
    { title := "Section " ++ toString (ip.1 + 1), bullets := bullets.take 6, notes := "" }

/-- The slides collected by the heading scan: split the stripped text
into lines, run the line loop from the empty state, and flush the final
slide. -/
def headingSlides (text : String) : List SlideDict :=
  (flush_slide ((pySplitlines (pyStrip text)).foldl heuristic_step ⟨[], none, []⟩)).slides

/-- _heuristic_split from llm_router.py: scan the stripped text for
markdown headings collecting slides, fall back to paragraph chunking when
no slides were produced, and cap the deck at twenty slides. -/
def _heuristic_split (text : String) (_guidance : Option String) : Deck :=
  { title := "",
    slides := (if (headingSlides text).isEmpty then paragraphSlides text
               else headingSlides text).take 20 }

/-! ### Provider response parsing (llm_router.py call helpers)

json.loads is external; it is modelled by an abstract parameter
jp : String -> Option Deck (some on valid JSON for the schema, none when
json.loads would raise). The regex that extracts the first brace span with
DOTALL and a greedy dot matches from the first opening brace to the last
closing brace that follows it. -/

/-- The opening curly brace character. -/
def lbrace : Char := Char.ofNat 123

/-- The closing curly brace character. -/
def rbrace : Char := Char.ofNat 125

/-- Index of the last occurrence of c in s, if any. -/
def lastIdxOf (c : Char) (s : List Char) : Option Nat :=
  match s.reverse.findIdx? (· = c) with
  | some k => some (s.length - 1 - k)
  | none => none

/-- The span matched by the greedy brace regex under DOTALL: from the
first opening brace to the last closing brace, provided the latter comes
after the former. -/
def extract_json_block (s : String) : Option String :=
  match s.data.findIdx? (· = lbrace), lastIdxOf rbrace s.data with
  | some i, some j => if i < j then some ⟨(s.data.drop i).take (j - i + 1)⟩ else none
  | _, _ => none

/-- Content parsing of _call_openai: try json.loads on the content; on
failure, search for a brace span and parse that; if there is no span or
the span fails to parse, the call raises. -/
def parse_openai_content (jp : String → Option Deck) (content : String) :
    Except Unit Deck :=
  match jp content with
  | some d => .ok d
  | none =>
    match extract_json_block content with
    | some m =>
      match jp m with
      | some d => .ok d
      | none => .error ()
    | none => .error ()

/-- Content parsing of _call_anthropic: json.loads on the concatenated
text blocks, with no fallback; a parse failure raises. -/
def parse_anthropic_content (jp : String → Option Deck) (text_out : String) :
    Except Unit Deck :=
  match jp text_out with
  | some d => .ok d
  | none => .error ()

/-- Content parsing of _call_gemini: json.loads on the concatenated candidate
parts, with no fallback; a parse failure raises. -/
def parse_gemini_content (jp : String → Option Deck) (text_out : String) :
    Except Unit Deck :=
  match jp text_out with
  | some d => .ok d
  | none => .error ()

/-! ### The routing function structure_slides -/

/-- Python truthiness of the optional api_key argument: present and
non-empty. -/
def keyTruthy : Option String → Bool
  | some k => k ≠ ""
  | none => false

/-- Python str.lower() restricted to ASCII, which covers the provider
names the router compares against. -/
def pyLower (s : String) : String :=
  ⟨s.data.map Char.toLower⟩

/-- The provider-name normalisation applied by structure_slides:
substitute the empty string for None, lower-case, strip. -/
def normProvider (provider : Option String) : String :=
  pyStrip (pyLower (provider.getD ""))

/-- The provider call the try block dispatches to for a normalised
provider name. Each call outcome is a value: ok with the parsed deck, or
error when the HTTP request, status check or JSON parsing raised. -/
def selectCall (p : String) (co ca cg : Except Unit Deck) : Except Unit Deck :=
  if p = "openai" then co else if p = "anthropic" then ca else cg

/-- structure_slides from llm_router.py, with the three provider call
outcomes passed as values: when an api key is given and the normalised
provider is known, return the provider result, falling back silently to
the heuristic when the call raised; otherwise run the heuristic. -/
def structure_slides (provider api_key : Option String) (text : String)
    (guidance : Option String) (co ca cg : Except Unit Deck) : Deck :=
  let p := normProvider provider
  if keyTruthy api_key && (p = "openai" || p = "anthropic" || p = "gemini") then
    match selectCall p co ca cg with
    | .ok d => d
    | .error _ => _heuristic_split text guidance
  else
    _heuristic_split text guidance

/-! ### The pptx builder (pptx_builder.py)

python-pptx is external; a parsed template is modelled by the number of
slide layouts it offers and the image pool collected from it, and each
fallible library operation that the builder wraps in try/except is
modelled by a boolean saying whether it would raise. A rendered content
slide records the observable outcome of add_bulleted_slide. -/

/-- Image blobs are abstract tokens. -/
abbrev Blob := Nat

/-- A parsed template container: whether opening it raises, how many
slide layouts it has, the image pool collect_template_images returns, and
whether serialisation raises. -/
structure Template where
  parseFails : Bool
  numLayouts : Nat
  images : List Blob
  saveFails : Bool

/-- The fallible library operations of one add_bulleted_slide call, each
wrapped in its own try/except: setting the title, whether the layout has a
BODY placeholder, placing the picture, writing the notes. -/
structure SlideEffects where
  titleFails : Bool
  hasBody : Bool
  pictureFails : Bool
  notesFails : Bool

/-- All fallible operations during one build: the title-slide block and
the per-content-slide effects, indexed by the running slide ordinal. -/
structure RenderEffects where
  titleSlideAddFails : Bool
  titleSlideSetFails : Bool
  slide : Nat → SlideEffects

/-- Observable outcome of one content slide. -/
structure RenderedSlide where
  layoutIdx : Nat
  titleText : String
  bodyBullets : List String
  imagePlaced : Option Nat
  notesText : String
  deriving Repr, DecidableEq

/-- Observable outcome of a whole build: the optional title slide text
and the content slides in order. -/
structure RenderResult where
  titleSlide : Option String
  slides : List RenderedSlide
  deriving Repr, DecidableEq

/-- A default rendered slide, used with List.getD. -/
def dfltSlide : RenderedSlide :=
  { layoutIdx := 0, titleText := "", bodyBullets := [], imagePlaced := none, notesText := "" }

/-- add_bulleted_slide from pptx_builder.py: the layout lookup is not
inside any try and raises when the index is out of range; the title write,
picture placement and notes write are each swallowed on failure; the body
placeholder receives the bullets when one exists; the image pool is
indexed by the cycle counter modulo the pool size; the function returns
the incremented counter. -/
def add_bulleted_slide (numLayouts : Nat) (eff : SlideEffects) (layout_idx : Nat)
    (title : String) (bullets : List String) (notes : String)
    (image_blobs : List Blob) (image_cycle_idx : Nat) :
    Except Unit (RenderedSlide × Nat) :=
  if layout_idx < numLayouts then
    .ok ({ layoutIdx := layout_idx,
           titleText := if eff.titleFails then "" else title,
           bodyBullets := if eff.hasBody then bullets else [],
           imagePlaced :=
             if !image_blobs.isEmpty && !eff.pictureFails then
               some (image_cycle_idx % image_blobs.length)
             else none,
           notesText := if notes ≠ "" && !eff.notesFails then notes else "" },
         image_cycle_idx + 1)
  else
    .error ()

/-- The content-slide layout index chosen by build_presentation: the
preferred index when it is in range, index 1 otherwise. -/
def default_layout_idx (prefer_layout_idx numLayouts : Nat) : Nat :=
  if prefer_layout_idx < numLayouts then prefer_layout_idx else 1

/-- The loop of build_presentation over the deck slides, threading the
image cycle counter; empty bullets are filtered out before each call. -/
def render_slides (tpl : Template) (eff : RenderEffects) (dli : Nat) :
    List SlideDict → Nat → Except Unit (List RenderedSlide)
  | [], _ => .ok []
  | s :: rest, idx =>
    match add_bulleted_slide tpl.numLayouts (eff.slide idx) dli s.title
        (s.bullets.filter fun b => b ≠ "") s.notes tpl.images idx with
    | .error e => .error e
    | .ok r =>
      match render_slides tpl eff dli rest r.2 with
      | .error e => .error e
      | .ok rs => .ok (r.1 :: rs)

/-- build_presentation from pptx_builder.py: opening the container may
raise (fatal); when the deck has an overall title a title slide is
attempted with every step swallowed; the content slides are added with
the chosen layout index starting from a zero image counter; saving may
raise (fatal). -/
def build_presentation (tpl : Template) (eff : RenderEffects) (deck : Deck)
    (prefer_layout_idx : Nat) : Except Unit RenderResult :=
  if tpl.parseFails then .error () else
  match render_slides tpl eff (default_layout_idx prefer_layout_idx tpl.numLayouts)
      deck.slides 0 with
  | .error e => .error e
  | .ok rs =>
    if tpl.saveFails then .error ()
    else .ok { titleSlide :=
                 if deck.title ≠ "" && decide (0 < tpl.numLayouts) &&
                     !eff.titleSlideAddFails then
                   some (if eff.titleSlideSetFails then "" else deck.title)
                 else none,
               slides := rs }

/-- The notes-suppression step of generate_pptx in main.py: when the
caller did not request speaker notes, every slide dict's notes entry is
overwritten with the empty string before the deck is rendered. -/
def suppress_notes (speaker_notes : Bool) (deck : Deck) : Deck :=
  if speaker_notes then deck
  else { deck with slides := deck.slides.map fun s => { s with notes := "" } }

/-! ### Concrete fixtures used by witnesses and counterexamples -/

/-- Effects under which no library operation fails and every layout has a
body placeholder. -/
def effNone : RenderEffects :=
  { titleSlideAddFails := false, titleSlideSetFails := false,
    slide := fun _ => { titleFails := false, hasBody := true,
                        pictureFails := false, notesFails := false } }

/-- A parseable, saveable template with a single slide layout and no
images. -/
def tplOne : Template :=
  { parseFails := false, numLayouts := 1, images := [], saveFails := false }

/-- A parseable, saveable template with two slide layouts and no images. -/
def tplTwo : Template :=
  { parseFails := false, numLayouts := 2, images := [], saveFails := false }

/-- A parseable, saveable template with two layouts and an image pool of
size two. -/
def tplPool : Template :=
  { parseFails := false, numLayouts := 2, images := [7, 9], saveFails := false }

/-- A deck with one content slide. -/
def deckOne : Deck :=
  { title := "", slides := [{ title := "t", bullets := ["b"], notes := "" }] }

/-- A deck with five content slides. -/
def deckFive : Deck :=
  { title := "",
    slides := [{ title := "s1", bullets := [], notes := "" },
               { title := "s2", bullets := [], notes := "" },
               { title := "s3", bullets := [], notes := "" },
               { title := "s4", bullets := [], notes := "" },
               { title := "s5", bullets := [], notes := "" }] }

/-- A deck with one content slide carrying speaker notes. -/
def deckNoted : Deck :=
  { title := "", slides := [{ title := "t", bullets := ["b"], notes := "secret" }] }

/-- A concrete stand-in for json.loads that accepts exactly one JSON
object string. -/
def jpDemo : String → Option Deck := fun s =>
  if s = "\x7b\"slides\":[]\x7d" then some { title := "", slides := [] } else none

/-- The render result of building deckFive against tplPool. -/
def renderedFive : RenderResult :=
  { titleSlide := none,
    slides := [{ layoutIdx := 1, titleText := "s1", bodyBullets := [], imagePlaced := some 0, notesText := "" },
               { layoutIdx := 1, titleText := "s2", bodyBullets := [], imagePlaced := some 1, notesText := "" },
               { layoutIdx := 1, titleText := "s3", bodyBullets := [], imagePlaced := some 0, notesText := "" },
               { layoutIdx := 1, titleText := "s4", bodyBullets := [], imagePlaced := some 1, notesText := "" },
               { layoutIdx := 1, titleText := "s5", bodyBullets := [], imagePlaced := some 0, notesText := "" }] }

/-- The render result of building the notes-suppressed deckNoted against
tplTwo. -/
def renderedNoted : RenderResult :=
  { titleSlide := none,
    slides := [{ layoutIdx := 1, titleText := "t", bodyBullets := ["b"], imagePlaced := none, notesText := "" }] }

/-! ## Theorems -/

/-- Claim C3: the heuristic structurer on the heading example produces exactly
two slides, titled A with bullet line1 and B with bullets line2, line3,
in that order. -/
theorem heuristic_heading_example :
    _heuristic_split "# A\nline1\n## B\nline2\nline3" none =
      { title := "",
        slides := [{ title := "A", bullets := ["line1"], notes := "" },
                   { title := "B", bullets := ["line2", "line3"], notes := "" }] } := by
  decide

/-- Claim C2 counterexample: on the input consisting of a single dash, the
heuristic produces a slide whose only bullet is the empty string, so not
every bullet is non-empty. -/
theorem heuristic_empty_bullet_counterexample :
    (_heuristic_split "-" none).slides = [{ title := "Slide", bullets := [""], notes := "" }] := by
  decide

/-- Claim C2 amended: for every input string the heuristic returns an outline
with at most twenty slides (bullets are not guaranteed non-empty). -/
theorem heuristic_slide_count_le (text : String) (g : Option String) :
    (_heuristic_split text g).slides.length ≤ 20 :=
  List.length_take_le 20 _

/-- Claim C4: evaluating the heuristic at the failing input of two blank-line
separated paragraphs: the heading scan already collects both paragraphs
into one slide titled Slide, so the paragraph-chunking fallback, which
would produce the two Section slides the spec describes, is never
reached. -/
theorem heuristic_paragraph_eval :
    _heuristic_split "para one\n\npara two" none =
      { title := "",
        slides := [{ title := "Slide", bullets := ["para one", "para two"], notes := "" }] } ∧
    paragraphSlides "para one\n\npara two" =
      [{ title := "Section 1", bullets := ["para one"], notes := "" },
       { title := "Section 2", bullets := ["para two"], notes := "" }] := by
  constructor <;> decide

/-- Claim C5 counterexample: a hash line with no trailing text does not start a
new slide: on this input it is collected as an ordinary content line, the
result is a single slide titled Slide containing the hash as a bullet,
and no slide with an empty title exists. -/
theorem heading_no_text_counterexample :
    _heuristic_split "x\n#\ny" none =
      { title := "", slides := [{ title := "Slide", bullets := ["x", "#", "y"], notes := "" }] } := by
  decide

/-- Claim C5 amended: a heading marker with no trailing text fails the heading
pattern, which requires at least one whitespace character and one further
character after the hashes, so such a line is treated as content and
becomes a bullet; no new slide is started for it. -/
theorem heading_no_text_amended :
    matchesHeading "#".data = false ∧
    matchesHeading "## ".data = false ∧
    _heuristic_split "x\n## \ny" none =
      { title := "", slides := [{ title := "Slide", bullets := ["x", "##", "y"], notes := "" }] } := by
  refine ⟨?_, ?_, ?_⟩ <;> decide

/-- Claim C9 counterexample: on a response whose raw text is not valid JSON but
contains a parseable brace span, the anthropic parser fails outright while
the openai parser recovers via the extracted span: the extraction step is
not attempted by every provider. -/
theorem provider_parse_counterexample :
    parse_anthropic_content jpDemo "note: \x7b\"slides\":[]\x7d end" = .error () ∧
    parse_gemini_content jpDemo "note: \x7b\"slides\":[]\x7d end" = .error () ∧
    parse_openai_content jpDemo "note: \x7b\"slides\":[]\x7d end" =
      .ok { title := "", slides := [] } := by
  refine ⟨rfl, rfl, ?_⟩
  rfl

/-- Claim C9 amended: only the openai structurer attempts the greedy brace-span
extraction when the raw text is not valid JSON; the anthropic and gemini
structurers parse the unwrapped text directly and fail exactly when that
parse fails, propagating to the router fallback. -/
theorem provider_parse_amended (jp : String → Option Deck) (content : String) :
    (jp content = none →
      parse_openai_content jp content =
        (match extract_json_block content with
         | some m =>
           match jp m with
           | some d => Except.ok d
           | none => Except.error ()
         | none => Except.error ())) ∧
    (parse_anthropic_content jp content = .error () ↔ jp content = none) ∧
    (parse_gemini_content jp content = .error () ↔ jp content = none) := by
  refine ⟨fun h => ?_, ?_, ?_⟩
  · simp only [parse_openai_content, h]
  · cases h : jp content <;> simp [parse_anthropic_content, h]
  · cases h : jp content <;> simp [parse_gemini_content, h]

/-- Claim C9 amended, witness at a concrete parser and content. -/
theorem provider_parse_amended_witness :
    parse_openai_content jpDemo "x" = .error () ∧
    parse_anthropic_content jpDemo "x" = .error () := by
  have h := provider_parse_amended jpDemo "x"
  exact ⟨(h.1 rfl).trans (by rfl), h.2.1.mpr rfl⟩

/-- Claim C1: the structuring router is total and, whenever the provider call it
dispatched to raised, returns exactly the heuristic outline: the result is
always either a provider success value or the heuristic outline, and an
error outcome of the selected call forces the heuristic outline. -/
theorem structure_slides_router (provider api_key : Option String) (text : String)
    (guidance : Option String) (co ca cg : Except Unit Deck) :
    (structure_slides provider api_key text guidance co ca cg = _heuristic_split text guidance ∨
      ∃ d, structure_slides provider api_key text guidance co ca cg = d ∧
        selectCall (normProvider provider) co ca cg = .ok d) ∧
    (selectCall (normProvider provider) co ca cg = .error () →
      structure_slides provider api_key text guidance co ca cg = _heuristic_split text guidance) := by
  constructor
  · by_cases hk : (keyTruthy api_key && (normProvider provider = "openai" ||
        normProvider provider = "anthropic" || normProvider provider = "gemini")) = true
    · cases hsel : selectCall (normProvider provider) co ca cg with
      | ok d =>
        right
        refine ⟨d, ?_, rfl⟩
        simp [structure_slides, hk, hsel]
      | error e =>
        left
        simp [structure_slides, hk, hsel]
    · left
      simp [structure_slides, hk]
  · intro herr
    by_cases hk : (keyTruthy api_key && (normProvider provider = "openai" ||
        normProvider provider = "anthropic" || normProvider provider = "gemini")) = true
    · simp [structure_slides, hk, herr]
    · simp [structure_slides, hk]

/-- Claim C1, witness: with the openai provider selected and a raising call, the
router returns the heuristic outline. -/
theorem structure_slides_router_witness :
    structure_slides (some "openai") (some "k") "a" none
        (.error ()) (.error ()) (.error ()) = _heuristic_split "a" none :=
  (structure_slides_router (some "openai") (some "k") "a" none
    (.error ()) (.error ()) (.error ())).2 rfl

/-- flush_slide preserves non-emptiness of all emitted titles: the slide
it appends is titled either by the truthy pending title or by the literal
Slide. -/
theorem flush_slide_titles (st : HState) (h : ∀ s ∈ st.slides, s.title ≠ "") :
    ∀ s ∈ (flush_slide st).slides, s.title ≠ "" := by
  intro s hs
  rw [flush_slide] at hs
  split at hs
  · simp only [List.mem_append, List.mem_singleton] at hs
    rcases hs with hs | hs
    · exact h s hs
    · subst hs
      cases hct : st.currentTitle with
      | none => simp
      | some t0 =>
        by_cases ht : t0 = "" <;> simp [ht]
  · exact h s hs

/-- One step of the line loop preserves non-emptiness of all emitted
titles. -/
theorem heuristic_step_titles (st : HState) (ln : String)
    (h : ∀ s ∈ st.slides, s.title ≠ "") :
    ∀ s ∈ (heuristic_step st ln).slides, s.title ≠ "" := by
  intro s hs
  rw [heuristic_step] at hs
  split at hs
  · exact flush_slide_titles st h s hs
  · split at hs
    · exact h s hs
    · exact h s hs

/-- The whole line loop preserves non-emptiness of all emitted titles. -/
theorem foldl_step_titles (lines : List String) (st : HState)
    (h : ∀ s ∈ st.slides, s.title ≠ "") :
    ∀ s ∈ (lines.foldl heuristic_step st).slides, s.title ≠ "" := by
  induction lines generalizing st with
  | nil => exact h
  | cons ln rest ih => exact ih _ (heuristic_step_titles st ln h)

/-- Every slide of the heading scan has a non-empty title. -/
theorem headingSlides_titles (text : String) :
    ∀ s ∈ headingSlides text, s.title ≠ "" :=
  flush_slide_titles _ (foldl_step_titles _ _ (by simp))

/-- Every slide of the paragraph fallback has a non-empty title of the
Section N form. -/
theorem paragraphSlides_titles (text : String) :
    ∀ s ∈ paragraphSlides text, s.title ≠ "" := by
  intro s hs
  unfold paragraphSlides at hs
  simp only [List.mem_map] at hs
  obtain ⟨ip, _, rfl⟩ := hs
  intro hcontr
  have hlen : ("Section ").length + (toString (ip.1 + 1)).length = ("" : String).length := by
    rw [← String.length_append]
    exact congrArg String.length hcontr
  rw [show ("Section ").length = 8 from rfl] at hlen
  rw [show ("" : String).length = 0 from rfl] at hlen
  omega

/-- Claim C10: the heuristic structurer never emits a slide with an empty
title: each slide is titled by its heading text, by the literal Slide, or
by Section N. -/
theorem heuristic_titles_nonempty (text : String) (g : Option String) :
    ∀ s ∈ (_heuristic_split text g).slides, s.title ≠ "" := by
  intro s hs
  have hs1 : s ∈ (if (headingSlides text).isEmpty then paragraphSlides text
      else headingSlides text) :=
    List.take_subset 20 _ hs
  by_cases hc : (headingSlides text).isEmpty
  · rw [if_pos hc] at hs1
    exact paragraphSlides_titles text s hs1
  · rw [if_neg hc] at hs1
    exact headingSlides_titles text s hs1

/-- Claim C10, witness: on a one-line input the single produced slide is titled
Slide, which is non-empty. -/
theorem heuristic_titles_nonempty_witness :
    ({ title := "Slide", bullets := ["a"], notes := "" } : SlideDict).title ≠ "" :=
  heuristic_titles_nonempty "a" none
    { title := "Slide", bullets := ["a"], notes := "" } (by decide)

/-- When the chosen layout index is in range, the slide loop always
succeeds, whatever the per-slide effects do. -/
theorem render_slides_ok (tpl : Template) (eff : RenderEffects) (dli : Nat)
    (hdli : dli < tpl.numLayouts) :
    ∀ (ss : List SlideDict) (idx : Nat),
      ∃ rs, render_slides tpl eff dli ss idx = .ok rs := by
  intro ss
  induction ss with
  | nil => exact fun idx => ⟨[], rfl⟩
  | cons s rest ih =>
    intro idx
    obtain ⟨rs, hrs⟩ := ih (idx + 1)
    rw [render_slides, add_bulleted_slide, if_pos hdli]
    dsimp only
    rw [hrs]
    exact ⟨_, rfl⟩

/-- Claim C6 counterexample: with a parseable, saveable template that has a
single layout, the fallback layout index 1 is out of range and the first
content slide makes the whole build fail, although neither container
parsing nor serialisation failed. -/
theorem layout_oob_counterexample :
    build_presentation tplOne effNone deckOne 1 = .error () ∧
    tplOne.parseFails = false ∧ tplOne.saveFails = false :=
  ⟨rfl, rfl, rfl⟩

/-- Claim C6 amended: the content-slide layout index is the preferred index
when the template has more layouts than it and index 1 otherwise; when
that index is in range, rendering never fails unless container parsing or
serialisation fails: every per-slide, per-placeholder and per-image
operation is swallowed. -/
theorem build_ok_when_layout_in_range (tpl : Template) (eff : RenderEffects)
    (deck : Deck) (pli : Nat) (hparse : tpl.parseFails = false)
    (hsave : tpl.saveFails = false)
    (hdli : default_layout_idx pli tpl.numLayouts < tpl.numLayouts) :
    ∃ r, build_presentation tpl eff deck pli = .ok r := by
  obtain ⟨rs, hrs⟩ := render_slides_ok tpl eff _ hdli deck.slides 0
  rw [build_presentation, hparse]
  simp only [Bool.false_eq_true, if_false]
  rw [hrs, hsave]
  exact ⟨_, rfl⟩

/-- Claim C6 amended, witness: with two layouts the preferred index 1 is in
range and the build succeeds. -/
theorem build_ok_witness :
    ∃ r, build_presentation tplTwo effNone deckOne 1 = .ok r :=
  build_ok_when_layout_in_range tplTwo effNone deckOne 1 rfl rfl (by decide)

/-- A successful build means the container parsed, the slide loop
succeeded producing exactly the result's content slides, and saving
succeeded. -/
theorem build_ok_render (tpl : Template) (eff : RenderEffects) (deck : Deck)
    (pli : Nat) (r : RenderResult)
    (hok : build_presentation tpl eff deck pli = .ok r) :
    render_slides tpl eff (default_layout_idx pli tpl.numLayouts) deck.slides 0
      = .ok r.slides := by
  rw [build_presentation] at hok
  by_cases hp : tpl.parseFails = true
  · rw [if_pos hp] at hok
    exact absurd hok (by simp)
  · rw [if_neg hp] at hok
    cases hrend : render_slides tpl eff (default_layout_idx pli tpl.numLayouts)
        deck.slides 0 with
    | error e =>
      rw [hrend] at hok
      exact absurd hok (by simp)
    | ok rs =>
      rw [hrend] at hok
      dsimp only at hok
      by_cases hs : tpl.saveFails = true
      · rw [if_pos hs] at hok
        exact absurd hok (by simp)
      · rw [if_neg hs] at hok
        cases hok
        rfl

/-- The slide loop advances the image counter by exactly one per slide:
starting from counter idx, the j-th rendered slide places the pooled
image idx plus j modulo the pool size whenever the pool is non-empty and
the placement did not raise, and no image otherwise. -/
theorem render_slides_images (tpl : Template) (eff : RenderEffects) (dli : Nat) :
    ∀ (ss : List SlideDict) (idx : Nat) (rs : List RenderedSlide),
      render_slides tpl eff dli ss idx = .ok rs →
      rs.length = ss.length ∧
      ∀ j, j < rs.length →
        (rs.getD j dfltSlide).imagePlaced =
          (if !tpl.images.isEmpty && !(eff.slide (idx + j)).pictureFails then
             some ((idx + j) % tpl.images.length) else none) := by
  intro ss
  induction ss with
  | nil =>
    intro idx rs hok
    cases hok
    exact ⟨rfl, fun j hj => absurd hj (by simp)⟩
  | cons s rest ih =>
    intro idx rs hok
    rw [render_slides] at hok
    by_cases hdl : dli < tpl.numLayouts
    · rw [add_bulleted_slide, if_pos hdl] at hok
      dsimp only at hok
      cases hrest : render_slides tpl eff dli rest (idx + 1) with
      | error e =>
        rw [hrest] at hok
        exact absurd hok (by simp)
      | ok rs2 =>
        rw [hrest] at hok
        cases hok
        obtain ⟨hlen, hspec⟩ := ih (idx + 1) rs2 hrest
        refine ⟨by simp [hlen], ?_⟩
        intro j hj
        cases j with
        | zero => simp
        | succ j =>
          have hj2 : j < rs2.length := by
            simp at hj
            omega
          have := hspec j hj2
          simpa [Nat.add_assoc, Nat.add_comm 1 j] using this
    · rw [add_bulleted_slide, if_neg hdl] at hok
      exact absurd hok (by simp)

/-- Claim C7: on a successful build there is one rendered slide per deck slide,
and the k-th content slide (0-indexed) draws the pooled image k modulo
the pool size — the counter advances once per slide whether or not an
image was actually placed. -/
theorem image_cycle (tpl : Template) (eff : RenderEffects) (deck : Deck)
    (pli : Nat) (r : RenderResult)
    (hok : build_presentation tpl eff deck pli = .ok r) :
    r.slides.length = deck.slides.length ∧
    ∀ k, k < r.slides.length →
      (r.slides.getD k dfltSlide).imagePlaced =
        (if !tpl.images.isEmpty && !(eff.slide k).pictureFails then
           some (k % tpl.images.length) else none) := by
  have h := render_slides_images tpl eff (default_layout_idx pli tpl.numLayouts)
    deck.slides 0 r.slides (build_ok_render tpl eff deck pli r hok)
  exact ⟨h.1, fun k hk => by simpa using h.2 k hk⟩

/-- Claim C7, witness: a pool of size two and five slides place the pool
indices 0, 1, 0, 1, 0 in slide order. -/
theorem image_cycle_witness :
    renderedFive.slides.length = deckFive.slides.length ∧
    (renderedFive.slides.getD 0 dfltSlide).imagePlaced = some 0 ∧
    (renderedFive.slides.getD 1 dfltSlide).imagePlaced = some 1 ∧
    (renderedFive.slides.getD 2 dfltSlide).imagePlaced = some 0 ∧
    (renderedFive.slides.getD 3 dfltSlide).imagePlaced = some 1 ∧
    (renderedFive.slides.getD 4 dfltSlide).imagePlaced = some 0 := by
  have h := image_cycle tplPool effNone deckFive 1 renderedFive rfl
  exact ⟨h.1,
    (h.2 0 (by decide)).trans (by decide),
    (h.2 1 (by decide)).trans (by decide),
    (h.2 2 (by decide)).trans (by decide),
    (h.2 3 (by decide)).trans (by decide),
    (h.2 4 (by decide)).trans (by decide)⟩

/-- When every incoming slide dict has empty notes, every slide the loop
renders has an empty notes frame. -/
theorem render_slides_notes (tpl : Template) (eff : RenderEffects) (dli : Nat) :
    ∀ (ss : List SlideDict) (idx : Nat) (rs : List RenderedSlide),
      (∀ s ∈ ss, s.notes = "") →
      render_slides tpl eff dli ss idx = .ok rs →
      ∀ x ∈ rs, x.notesText = "" := by
  intro ss
  induction ss with
  | nil =>
    intro idx rs _ hok
    cases hok
    simp
  | cons s rest ih =>
    intro idx rs hnotes hok
    rw [render_slides] at hok
    by_cases hdl : dli < tpl.numLayouts
    · rw [add_bulleted_slide, if_pos hdl] at hok
      dsimp only at hok
      cases hrest : render_slides tpl eff dli rest (idx + 1) with
      | error e =>
        rw [hrest] at hok
        exact absurd hok (by simp)
      | ok rs2 =>
        rw [hrest] at hok
        cases hok
        intro x hx
        rcases List.mem_cons.mp hx with hx | hx
        · subst hx
          have hs : s.notes = "" := hnotes s (by simp)
          simp [hs]
        · exact ih (idx + 1) rs2 (fun t ht => hnotes t (by simp [ht])) hrest x hx
    · rw [add_bulleted_slide, if_neg hdl] at hok
      exact absurd hok (by simp)

/-- Claim C8: when the caller disables speaker notes, every slide dict's notes
entry is forced to the empty string before rendering, and consequently
every rendered slide's notes frame is empty whatever the outline
contained. -/
theorem notes_suppressed (tpl : Template) (eff : RenderEffects) (deck : Deck)
    (pli : Nat) (r : RenderResult) :
    (∀ s ∈ (suppress_notes false deck).slides, s.notes = "") ∧
    (build_presentation tpl eff (suppress_notes false deck) pli = .ok r →
      ∀ x ∈ r.slides, x.notesText = "") := by
  have hall : ∀ s ∈ (suppress_notes false deck).slides, s.notes = "" := by
    intro s hs
    rw [suppress_notes] at hs
    simp only [Bool.false_eq_true, if_false, List.mem_map] at hs
    obtain ⟨t, _, rfl⟩ := hs
    rfl
  refine ⟨hall, fun hok => ?_⟩
  exact render_slides_notes tpl eff _ _ 0 _ hall
    (build_ok_render tpl eff (suppress_notes false deck) pli r hok)

/-- Claim C8, witness: a deck whose slide carries notes renders with an empty
notes frame once notes are disabled. -/
theorem notes_suppressed_witness :
    (({ title := "t", bullets := ["b"], notes := "" } : SlideDict).notes = "") ∧
    (renderedNoted.slides.getD 0 dfltSlide).notesText = "" := by
  have h := notes_suppressed tplTwo effNone deckNoted 1 renderedNoted
  exact ⟨h.1 _ (by decide),
    h.2 rfl (renderedNoted.slides.getD 0 dfltSlide) (by decide)⟩

end TextToPpt
